import Mathlib

/-!
Shallow embedding of `translator.py`: the translation dispatcher
`translate_text`, the engine catalog `MODEL_DICT`, and the multi-engine
comparison loop of `main`.  External effects (the OpenAI and Ollama
clients, the YAML loader) are modelled as explicit fallible functions
returning `Except String _`, mirroring Python exceptions.
-/

namespace Translator

/-- One chat message, as in the `{"role": ..., "content": ...}` dict
literals passed to both backends. -/
structure Message where
  role : String
  content : String
deriving DecidableEq

/-- One element of `completion.choices` in an OpenAI chat-completion
response. -/
structure Choice where
  message : Message
deriving DecidableEq

/-- An OpenAI chat-completion response object: it carries the list
`completion.choices`. -/
structure ChatCompletion where
  choices : List Choice
deriving DecidableEq

/-- An Ollama chat response: a dict with (at least) a `"message"` key whose
value is a dict with a `"content"` key, modelled as nested association
lists so that key access can fail like a Python dict access. -/
abbrev OllamaResponse := List (String × List (String × String))

/-- The process environment seen by `translate_text`: the catalog
`MODEL_DICT` loaded at startup, the outcome of constructing the OpenAI
client (`OpenAI()` can raise when no key is configured), and the two
backend calls (`client.chat.completions.create` and `ollama.chat`),
each of which can raise, modelled as `Except`. -/
structure Env where
  MODEL_DICT : List (String × String)
  openai_client : Except String Unit
  openai_chat : String → List Message → Except String ChatCompletion
  ollama_chat : String → List Message → Except String OllamaResponse

/-- Python `str.isspace` on the ASCII whitespace characters stripped by
`str.strip()`. -/
def pyIsSpace (c : Char) : Bool :=
  c = ' ' || c = '\t' || c = '\n' || c = '\r' || c = '\x0b' || c = '\x0c'

/-- `not text.strip()` (line 56): the string is empty or whitespace-only. -/
def pyStripIsEmpty (s : String) : Bool :=
  s.data.all pyIsSpace

/-- Python `str.split(sep)` with a one-character separator, on the
character list: `"".split("/") == [""]`, `"a/b".split("/") == ["a","b"]`. -/
def pySplitSep (sep : Char) : List Char → List (List Char)
  | [] => [[]]
  | c :: cs =>
    if c = sep then [] :: pySplitSep sep cs
    else
      match pySplitSep sep cs with
      | [] => [[c]]
      | h :: t => (c :: h) :: t

/-- `engine.split("/")[0]` (line 60): the backend name the dispatcher
branches on. -/
def mainEngineOf (engine : String) : String :=
  String.mk ((pySplitSep '/' engine.data).headD [])

/-- Lookup in an association-list dict: the value bound to the first
matching key, if any. -/
def pyDictLookup {α : Type} : List (String × α) → String → Option α
  | [], _ => none
  | (a, b) :: t, k => if k = a then some b else pyDictLookup t k

/-- Python dict subscript `d[k]`: the stored value, or a `KeyError` whose
`str` is the repr of the key, `'k'`. -/
def dictGet {α : Type} (d : List (String × α)) (k : String) : Except String α :=
  match pyDictLookup d k with
  | some v => Except.ok v
  | none => Except.error ("'" ++ k ++ "'")

/-- Python list subscript `l[0]`: the first element, or an `IndexError`. -/
def listIndex0 {α : Type} (l : List α) : Except String α :=
  match l with
  | [] => Except.error "list index out of range"
  | a :: _ => Except.ok a

/-- The system instruction of the OpenAI request (lines 75-81). -/
def openai_system_content (target_lang : String) : String :=
  "You are a helpful translator. " ++
  "However, only the translation result should be output. " ++
  "Code blocks or phrases like \"Here is the translation result:\" " ++
  "should not be included. " ++
  "Please translate into " ++ target_lang ++ "."

/-- The message list of the OpenAI chat-completion request (lines 72-87). -/
def openai_messages (target_lang text : String) : List Message :=
  [⟨"system", openai_system_content target_lang⟩, ⟨"user", text⟩]

/-- The inlined Ollama prompt template (lines 94-102). -/
def ollama_prompt (target_lang text : String) : String :=
  "You are a helpful translator. " ++
  "However, only the translation result should be output. " ++
  "Code blocks or phrases like \"Here is the translation result:\" " ++
  "should not be included. " ++
  "Please translate into " ++ target_lang ++ ".\n\n" ++
  "Source Sentence: " ++ text ++ "\n" ++
  "Target Sentence: "

/-- The body of the `try` block of `translate_text` (lines 62-114): each
fallible step (client construction, catalog subscript, backend call,
response field access) propagates its exception outward. -/
def translate_body (env : Env) (text engine target_lang main_engine : String) :
    Except String String :=
  if main_engine = "OpenAI" then
    match env.openai_client with
    | Except.error err => Except.error err
    | Except.ok _ =>
      match dictGet env.MODEL_DICT engine with
      | Except.error err => Except.error err
      | Except.ok model_id =>
        match env.openai_chat model_id (openai_messages target_lang text) with
        | Except.error err => Except.error err
        | Except.ok completion =>
          match listIndex0 completion.choices with
          | Except.error err => Except.error err
          | Except.ok choice => Except.ok choice.message.content
  else if main_engine = "Ollama" then
    match dictGet env.MODEL_DICT engine with
    | Except.error err => Except.error err
    | Except.ok model_id =>
      match env.ollama_chat model_id [⟨"user", ollama_prompt target_lang text⟩] with
      | Except.error err => Except.error err
      | Except.ok response =>
        match dictGet response "message" with
        | Except.error err => Except.error err
        | Except.ok message =>
          match dictGet message "content" with
          | Except.error err => Except.error err
          | Except.ok content => Except.ok content
  else
    Except.ok "No translation engine selected."

/-- The `except Exception as e` handler (lines 116-118): a successful body
returns its translation, an exception becomes the formatted error string. -/
def handle_result : Except String String → String
  | Except.ok t => t
  | Except.error e => "Error occurred during translation: " ++ e

/-- `translate_text(text, engine, target_lang)` (lines 33-118). -/
def translate_text (env : Env) (text engine target_lang : String) : String :=
  if pyStripIsEmpty text then
    "Please enter or paste the text to be translated."
  else
    handle_result (translate_body env text engine target_lang (mainEngineOf engine))

/-- Python dict assignment `d[k] = v`: replaces the binding in place when
the key is present, appends it otherwise (insertion order preserved). -/
def pyDictSet : List (String × String) → String → String → List (String × String)
  | [], k, v => [(k, v)]
  | (a, b) :: t, k, v => if a = k then (k, v) :: t else (a, b) :: pyDictSet t k v

/-- The comparison loop of `main` (lines 216-218): an empty dict filled by
`compare_results[e] = translate_text(text_to_translate, e, tgt_lang)` over
the selected engines in caller order. -/
def compare_results (env : Env) (text tgt_lang : String)
    (compare_engines : List String) : List (String × String) :=
  compare_engines.foldl
    (fun d e => pyDictSet d e (translate_text env text e tgt_lang)) []

/-- Modelled from the spec: the catalog loader (line 29-30 runs
`open("configs/avail_models.yaml")` and `yaml.safe_load`, both external to
the repository).  `load` takes the outcome of opening the file (`none`
when it is missing) and a parse function (`none` when the content is
malformed) and produces either a ConfigError or the full mapping, never a
partial one. -/
def load_catalog (file : Option String)
    (parse_yaml : String → Option (List (String × String))) :
    Except String (List (String × String)) :=
  match file with
  | none => Except.error "ConfigError: configuration file missing"
  | some s =>
    match parse_yaml s with
    | none => Except.error "ConfigError: configuration file malformed"
    | some m => Except.ok m

/-- Spec-side definition for C6, from the spec's words: the backend is
"the substring of `label` before the first `/` separator". -/
def backend_of_label (label : String) : String :=
  String.mk (label.data.takeWhile (fun c => c != '/'))

/-- A fixed catalog used to exercise the theorems on concrete inputs. -/
def demo_catalog : List (String × String) :=
  [("OpenAI/GPT-4o", "gpt-4o"), ("Ollama/gemma-3-4b-it-gguf", "gemma3:4b")]

/-- An environment whose backends answer successfully with fixed content. -/
def stub_env : Env where
  MODEL_DICT := demo_catalog
  openai_client := Except.ok ()
  openai_chat := fun _ _ => Except.ok ⟨[⟨⟨"assistant", "X"⟩⟩]⟩
  ollama_chat := fun _ _ =>
    Except.ok [("message", [("role", "assistant"), ("content", "Y")])]

/-- An environment whose backend calls raise. -/
def failing_env : Env where
  MODEL_DICT := demo_catalog
  openai_client := Except.ok ()
  openai_chat := fun _ _ => Except.error "Connection error."
  ollama_chat := fun _ _ => Except.error "Connection error."

/-- A fixed parse function used to exercise the loader theorem. -/
def demo_parse (s : String) : Option (List (String × String)) :=
  if s = "good" then some [("OpenAI/GPT-4o", "gpt-4o")] else none

lemma pySplitSep_headD (sep : Char) :
    ∀ l : List Char, (pySplitSep sep l).headD [] = l.takeWhile (fun c => c != sep)
  | [] => rfl
  | c :: cs => by
    by_cases h : c = sep
    · simp [pySplitSep, h, List.takeWhile]
    · have ih := pySplitSep_headD sep cs
      have hb : (c != sep) = true := bne_iff_ne.mpr h
      cases hs : pySplitSep sep cs with
      | nil =>
        rw [hs] at ih
        simp only [pySplitSep, if_neg h, hs, List.takeWhile, List.headD]
        simp only [List.headD] at ih
        simp [hb, ← ih]
      | cons hd tl =>
        rw [hs] at ih
        simp only [pySplitSep, if_neg h, hs, List.takeWhile, List.headD]
        simp only [List.headD] at ih
        simp [hb, ih]

lemma mainEngineOf_eq_backend_of_label (label : String) :
    mainEngineOf label = backend_of_label label :=
  congrArg String.mk (pySplitSep_headD '/' label.data)

lemma takeWhile_ne_of_not_mem (sep : Char) :
    ∀ l : List Char, sep ∉ l → l.takeWhile (fun c => c != sep) = l
  | [], _ => rfl
  | c :: cs, h => by
    have hc : ¬ c = sep := fun hcs => h (hcs ▸ List.mem_cons_self c cs)
    have hcs : sep ∉ cs := fun hm => h (List.mem_cons_of_mem c hm)
    have hb : (c != sep) = true := bne_iff_ne.mpr hc
    simp [List.takeWhile, hb, takeWhile_ne_of_not_mem sep cs hcs]

lemma translate_text_empty (env : Env) (text engine target_lang : String)
    (h : pyStripIsEmpty text = true) :
    translate_text env text engine target_lang =
      "Please enter or paste the text to be translated." := by
  simp [translate_text, h]

lemma translate_text_unrecognized (env : Env) (text engine target_lang : String)
    (h1 : pyStripIsEmpty text = false)
    (h2 : ¬ mainEngineOf engine = "OpenAI")
    (h3 : ¬ mainEngineOf engine = "Ollama") :
    translate_text env text engine target_lang = "No translation engine selected." := by
  simp [translate_text, h1, translate_body, h2, h3, handle_result]

lemma no_engine_string_ne_error (e : String) :
    "No translation engine selected." ≠ "Error occurred during translation: " ++ e := by
  intro h
  obtain ⟨l⟩ := e
  have h1 : "No translation engine selected.".data
      = "Error occurred during translation: ".data ++ l := congrArg String.data h
  rw [show "No translation engine selected.".data
      = 'N' :: "o translation engine selected.".data from rfl,
    show "Error occurred during translation: ".data
      = 'E' :: "rror occurred during translation: ".data from rfl,
    List.cons_append] at h1
  injection h1 with h2 _
  exact absurd h2 (by decide)

lemma lookup_pyDictSet :
    ∀ (d : List (String × String)) (k v k' : String),
      pyDictLookup (pyDictSet d k v) k' = if k' = k then some v else pyDictLookup d k'
  | [], k, v, k' => by by_cases h : k' = k <;> simp [pyDictSet, pyDictLookup, h]
  | (a, b) :: t, k, v, k' => by
    have ih := lookup_pyDictSet t k v k'
    by_cases hak : a = k
    · subst hak
      by_cases hk : k' = a <;> simp [pyDictSet, pyDictLookup, hk]
    · by_cases hka : k' = a
      · have hk : ¬ k' = k := fun hkk => hak (hka.symm.trans hkk)
        simp [pyDictSet, pyDictLookup, hak, hka, hk]
      · simp [pyDictSet, pyDictLookup, hak, hka, ih]

lemma lookup_foldl_pyDictSet (f : String → String) :
    ∀ (l : List String) (d : List (String × String)) (k : String),
      pyDictLookup (l.foldl (fun d e => pyDictSet d e (f e)) d) k
        = if k ∈ l then some (f k) else pyDictLookup d k
  | [], d, k => by simp
  | e :: t, d, k => by
    have ih := lookup_foldl_pyDictSet f t (pyDictSet d e (f e)) k
    rw [List.foldl_cons, ih, lookup_pyDictSet]
    by_cases hkt : k ∈ t
    · simp [hkt, List.mem_cons]
    · by_cases hke : k = e
      · simp [hkt, hke, List.mem_cons]
      · simp [hkt, hke, List.mem_cons]

/-- Claim C1: whenever the body of the `try` block (client construction,
catalog lookup, backend call, or response field access) raises an
exception carrying details `e`, `translate_text` returns exactly
"Error occurred during translation: " followed by `e`; being a total Lean
function into `String`, it never raises past its own boundary. -/
theorem claim1_error_boundary (env : Env) (text engine target_lang e : String)
    (h : pyStripIsEmpty text = false)
    (herr : translate_body env text engine target_lang (mainEngineOf engine)
      = Except.error e) :
    translate_text env text engine target_lang
      = "Error occurred during translation: " ++ e := by
  simp [translate_text, h, herr, handle_result]

/-- Claim C1 witness: a backend raising "Connection error." on a catalogued
OpenAI engine yields the formatted error string. -/
theorem claim1_witness :
    translate_text failing_env "hi" "OpenAI/GPT-4o" "Japanese"
      = "Error occurred during translation: " ++ "Connection error." :=
  claim1_error_boundary failing_env "hi" "OpenAI/GPT-4o" "Japanese"
    "Connection error." rfl rfl

/-- Claim C2: for every engine label and target language, empty or
whitespace-only text returns the fixed guidance string. -/
theorem claim2_empty_text_guidance (env : Env) (text engine target_lang : String)
    (h : pyStripIsEmpty text = true) :
    translate_text env text engine target_lang
      = "Please enter or paste the text to be translated." :=
  translate_text_empty env text engine target_lang h

/-- Claim C2 witness: whitespace-only text on a concrete engine and language. -/
theorem claim2_witness :
    translate_text stub_env " \t\n" "OpenAI/GPT-4o" "Japanese"
      = "Please enter or paste the text to be translated." :=
  claim2_empty_text_guidance stub_env " \t\n" "OpenAI/GPT-4o" "Japanese" (by decide)

/-- Claim C3: for non-empty text, an engine label whose backend part is
neither "OpenAI" nor "Ollama" returns the fixed no-engine string. -/
theorem claim3_unrecognized_backend (env : Env) (text engine target_lang : String)
    (h1 : pyStripIsEmpty text = false)
    (h2 : ¬ mainEngineOf engine = "OpenAI")
    (h3 : ¬ mainEngineOf engine = "Ollama") :
    translate_text env text engine target_lang = "No translation engine selected." :=
  translate_text_unrecognized env text engine target_lang h1 h2 h3

/-- Claim C3 witness: the label "Unknown/Whatever" on non-empty text. -/
theorem claim3_witness :
    translate_text stub_env "hello" "Unknown/Whatever" "Japanese"
      = "No translation engine selected." :=
  claim3_unrecognized_backend stub_env "hello" "Unknown/Whatever" "Japanese"
    (by decide) (by decide) (by decide)

/-- Claim C4: with a stub OpenAI-compatible backend whose first choice has
message content `c.message.content`, an "OpenAI/"-prefixed label returns
exactly that content; with a stub Ollama-compatible backend whose
response's "message" dict maps "content" to `y`, an "Ollama/"-prefixed
label returns exactly `y`. -/
theorem claim4_stub_backend_content :
    (∀ (env : Env) (text engine target_lang mid : String) (c : Choice)
      (cs : List Choice) (compl : ChatCompletion),
      pyStripIsEmpty text = false →
      mainEngineOf engine = "OpenAI" →
      env.openai_client = Except.ok () →
      pyDictLookup env.MODEL_DICT engine = some mid →
      env.openai_chat mid (openai_messages target_lang text) = Except.ok compl →
      compl.choices = c :: cs →
      translate_text env text engine target_lang = c.message.content)
    ∧ (∀ (env : Env) (text engine target_lang mid y : String)
      (resp : OllamaResponse) (msg : List (String × String)),
      pyStripIsEmpty text = false →
      mainEngineOf engine = "Ollama" →
      pyDictLookup env.MODEL_DICT engine = some mid →
      env.ollama_chat mid [⟨"user", ollama_prompt target_lang text⟩] = Except.ok resp →
      pyDictLookup resp "message" = some msg →
      pyDictLookup msg "content" = some y →
      translate_text env text engine target_lang = y) := by
  constructor
  · intro env text engine target_lang mid c cs compl h hEng hClient hLk hChat hChoices
    simp [translate_text, h]
    rw [hEng]
    simp [translate_body, hClient, dictGet, hLk, hChat, hChoices, listIndex0,
      handle_result]
  · intro env text engine target_lang mid y resp msg h hEng hLk hChat hMsg hContent
    have hne : ¬ ("Ollama" : String) = "OpenAI" := by decide
    simp [translate_text, h]
    rw [hEng]
    simp [translate_body, hne, dictGet, hLk, hChat, hMsg, hContent, handle_result]

/-- Claim C4 witness: the stub environment answers "X" through the OpenAI
path and "Y" through the Ollama path. -/
theorem claim4_witness :
    translate_text stub_env "hi" "OpenAI/GPT-4o" "Japanese" = "X"
    ∧ translate_text stub_env "hi" "Ollama/gemma-3-4b-it-gguf" "Japanese" = "Y" :=
  ⟨claim4_stub_backend_content.1 stub_env "hi" "OpenAI/GPT-4o" "Japanese" "gpt-4o"
      ⟨⟨"assistant", "X"⟩⟩ [] ⟨[⟨⟨"assistant", "X"⟩⟩]⟩ rfl rfl rfl rfl rfl rfl,
   claim4_stub_backend_content.2 stub_env "hi" "Ollama/gemma-3-4b-it-gguf" "Japanese"
      "gemma3:4b" "Y" [("message", [("role", "assistant"), ("content", "Y")])]
      [("role", "assistant"), ("content", "Y")] rfl rfl rfl rfl rfl rfl⟩

/-- Claim C5: a catalog lookup on a present label returns its configured
identifier, on an absent label raises a KeyError (a LookupError) whose
details are the quoted key; through `translate_text` on an OpenAI label
the KeyError surfaces as the formatted error string. -/
theorem claim5_catalog_lookup :
    (∀ (d : List (String × String)) (L v : String),
      pyDictLookup d L = some v → dictGet d L = Except.ok v)
    ∧ (∀ (d : List (String × String)) (L : String),
      pyDictLookup d L = none → dictGet d L = Except.error ("'" ++ L ++ "'"))
    ∧ (∀ (env : Env) (text engine target_lang : String),
      pyStripIsEmpty text = false →
      mainEngineOf engine = "OpenAI" →
      env.openai_client = Except.ok () →
      pyDictLookup env.MODEL_DICT engine = none →
      translate_text env text engine target_lang
        = "Error occurred during translation: " ++ ("'" ++ engine ++ "'")) := by
  refine ⟨?_, ?_, ?_⟩
  · intro d L v h
    simp [dictGet, h]
  · intro d L h
    simp [dictGet, h]
  · intro env text engine target_lang h hEng hClient hLk
    simp [translate_text, h]
    rw [hEng]
    simp [translate_body, hClient, dictGet, hLk, handle_result]

/-- Claim C5 witness: the demo catalog resolves its first label, fails on a
missing one, and the failure surfaces through `translate_text`. -/
theorem claim5_witness :
    dictGet demo_catalog "OpenAI/GPT-4o" = Except.ok "gpt-4o"
    ∧ dictGet demo_catalog "OpenAI/NotThere"
      = Except.error ("'" ++ "OpenAI/NotThere" ++ "'")
    ∧ translate_text stub_env "hi" "OpenAI/NotThere" "Japanese"
      = "Error occurred during translation: " ++ ("'" ++ "OpenAI/NotThere" ++ "'") :=
  ⟨claim5_catalog_lookup.1 demo_catalog "OpenAI/GPT-4o" "gpt-4o" rfl,
   claim5_catalog_lookup.2.1 demo_catalog "OpenAI/NotThere" rfl,
   claim5_catalog_lookup.2.2 stub_env "hi" "OpenAI/NotThere" "Japanese"
     rfl rfl rfl rfl⟩

/-- Claim C6: the dispatcher's backend name `engine.split("/")[0]` is the
substring of the label before the first "/" separator, and on non-empty
text the dispatch is performed on exactly that value. -/
theorem claim6_backend_before_first_slash :
    (∀ label : String, mainEngineOf label = backend_of_label label)
    ∧ (∀ (env : Env) (text engine target_lang : String),
      pyStripIsEmpty text = false →
      translate_text env text engine target_lang
        = handle_result
            (translate_body env text engine target_lang (backend_of_label engine))) := by
  constructor
  · exact mainEngineOf_eq_backend_of_label
  · intro env text engine target_lang h
    simp [translate_text, h, mainEngineOf_eq_backend_of_label]

/-- Claim C6 witness: the prefix of "OpenAI/GPT-4o" and the dispatch
equation at a concrete input. -/
theorem claim6_witness :
    mainEngineOf "OpenAI/GPT-4o" = backend_of_label "OpenAI/GPT-4o"
    ∧ translate_text stub_env "hi" "OpenAI/GPT-4o" "Japanese"
      = handle_result (translate_body stub_env "hi" "OpenAI/GPT-4o" "Japanese"
          (backend_of_label "OpenAI/GPT-4o")) :=
  ⟨claim6_backend_before_first_slash.1 "OpenAI/GPT-4o",
   claim6_backend_before_first_slash.2 stub_env "hi" "OpenAI/GPT-4o" "Japanese" rfl⟩

/-- Claim C7: the comparison dict binds every selected engine to exactly
`translate_text` applied with that engine (no cross-assignment), and binds
nothing else. -/
theorem claim7_compare_keyed_by_engine (env : Env) (text tgt_lang : String)
    (compare_engines : List String) (e : String) :
    (e ∈ compare_engines →
      pyDictLookup (compare_results env text tgt_lang compare_engines) e
        = some (translate_text env text e tgt_lang))
    ∧ (e ∉ compare_engines →
      pyDictLookup (compare_results env text tgt_lang compare_engines) e = none) := by
  have h := lookup_foldl_pyDictSet (fun x => translate_text env text x tgt_lang)
    compare_engines [] e
  constructor
  · intro hm
    rw [if_pos hm] at h
    exact h
  · intro hm
    rw [if_neg hm] at h
    exact h

/-- Claim C7 witness: a two-engine comparison binds the OpenAI label to its
own translation and binds no result to an unselected engine. -/
theorem claim7_witness :
    pyDictLookup (compare_results stub_env "hi" "Japanese"
        ["OpenAI/GPT-4o", "Ollama/gemma-3-4b-it-gguf"]) "OpenAI/GPT-4o"
      = some (translate_text stub_env "hi" "OpenAI/GPT-4o" "Japanese")
    ∧ pyDictLookup (compare_results stub_env "hi" "Japanese"
        ["OpenAI/GPT-4o", "Ollama/gemma-3-4b-it-gguf"]) "DeepL/Pro" = none :=
  ⟨(claim7_compare_keyed_by_engine stub_env "hi" "Japanese"
      ["OpenAI/GPT-4o", "Ollama/gemma-3-4b-it-gguf"] "OpenAI/GPT-4o").1 (by decide),
   (claim7_compare_keyed_by_engine stub_env "hi" "Japanese"
      ["OpenAI/GPT-4o", "Ollama/gemma-3-4b-it-gguf"] "DeepL/Pro").2 (by decide)⟩

/-- Claim C8: the catalog load fails with a ConfigError when the file is
missing or malformed — producing no partial catalog — and otherwise
returns the full configured mapping. -/
theorem claim8_catalog_load (parse_yaml : String → Option (List (String × String))) :
    load_catalog none parse_yaml
      = Except.error "ConfigError: configuration file missing"
    ∧ (∀ s, parse_yaml s = none →
        load_catalog (some s) parse_yaml
          = Except.error "ConfigError: configuration file malformed")
    ∧ (∀ s m, parse_yaml s = some m → load_catalog (some s) parse_yaml = Except.ok m) := by
  refine ⟨rfl, ?_, ?_⟩
  · intro s h
    simp [load_catalog, h]
  · intro s m h
    simp [load_catalog, h]

/-- Claim C8 witness: the loader at a missing file, a malformed file, and a
well-formed file. -/
theorem claim8_witness :
    load_catalog none demo_parse
      = Except.error "ConfigError: configuration file missing"
    ∧ load_catalog (some "bad") demo_parse
      = Except.error "ConfigError: configuration file malformed"
    ∧ load_catalog (some "good") demo_parse = Except.ok [("OpenAI/GPT-4o", "gpt-4o")] :=
  ⟨(claim8_catalog_load demo_parse).1,
   (claim8_catalog_load demo_parse).2.1 "bad" rfl,
   (claim8_catalog_load demo_parse).2.2 "good" [("OpenAI/GPT-4o", "gpt-4o")] rfl⟩

/-- Claim C9: the empty-text check precedes dispatch: on empty or
whitespace-only text the guidance string is returned for every label, and
the result is independent of the whole environment (catalog and backends),
so no lookup and no network call can influence it. -/
theorem claim9_empty_check_precedence (env env' : Env)
    (text engine target_lang : String) (h : pyStripIsEmpty text = true) :
    translate_text env text engine target_lang
      = "Please enter or paste the text to be translated."
    ∧ translate_text env text engine target_lang
      = translate_text env' text engine target_lang :=
  ⟨translate_text_empty env text engine target_lang h,
   (translate_text_empty env text engine target_lang h).trans
     (translate_text_empty env' text engine target_lang h).symm⟩

/-- Claim C9 witness: empty text with a label absent from the catalog and a
failing backend still yields the guidance string, identically across
environments. -/
theorem claim9_witness :
    translate_text failing_env "" "DeepL/Pro" "Japanese"
      = "Please enter or paste the text to be translated."
    ∧ translate_text failing_env "" "DeepL/Pro" "Japanese"
      = translate_text stub_env "" "DeepL/Pro" "Japanese" :=
  claim9_empty_check_precedence failing_env stub_env "" "DeepL/Pro" "Japanese" rfl

/-- Claim C10: prefix extraction is total — on a label without "/" (the
empty string included) the whole label is the backend name — and the
unrecognized-backend branch never consults the catalog: with the label
absent from the catalog the result is still the fixed no-engine string and
never an error string. -/
theorem claim10_unrecognized_no_lookup :
    (∀ label : String, '/' ∉ label.data → mainEngineOf label = label)
    ∧ mainEngineOf "" = ""
    ∧ (∀ (env : Env) (text engine target_lang : String),
      pyStripIsEmpty text = false →
      ¬ mainEngineOf engine = "OpenAI" →
      ¬ mainEngineOf engine = "Ollama" →
      pyDictLookup env.MODEL_DICT engine = none →
      translate_text env text engine target_lang = "No translation engine selected."
      ∧ ∀ e : String, ¬ translate_text env text engine target_lang
          = "Error occurred during translation: " ++ e) := by
  refine ⟨?_, rfl, ?_⟩
  · intro label h
    obtain ⟨l⟩ := label
    exact congrArg String.mk
      ((pySplitSep_headD '/' l).trans (takeWhile_ne_of_not_mem '/' l h))
  · intro env text engine target_lang h1 h2 h3 _
    have heq := translate_text_unrecognized env text engine target_lang h1 h2 h3
    exact ⟨heq, fun e hcontra => no_engine_string_ne_error e (heq.symm.trans hcontra)⟩

/-- Claim C10 witness: a slashless label is its own backend name, and an
unrecognized label absent from the catalog yields the no-engine string,
not an error string. -/
theorem claim10_witness :
    mainEngineOf "NoSlashLabel" = "NoSlashLabel"
    ∧ mainEngineOf "" = ""
    ∧ translate_text stub_env "hello" "Unknown" "Japanese"
      = "No translation engine selected."
    ∧ ¬ translate_text stub_env "hello" "Unknown" "Japanese"
      = "Error occurred during translation: " ++ "'Unknown'" :=
  ⟨claim10_unrecognized_no_lookup.1 "NoSlashLabel" (by decide),
   claim10_unrecognized_no_lookup.2.1,
   (claim10_unrecognized_no_lookup.2.2 stub_env "hello" "Unknown" "Japanese"
     (by decide) (by decide) (by decide) (by decide)).1,
   (claim10_unrecognized_no_lookup.2.2 stub_env "hello" "Unknown" "Japanese"
     (by decide) (by decide) (by decide) (by decide)).2 "'Unknown'"⟩

end Translator
